import Mathlib

/-!
Shallow embedding of the notebook `intermediate-ml.ipynb` from the repository
`quimpm/pokemon-combat-prediction`.

The notebook is straight-line Python calling pandas / numpy / scikit-learn.
Two layers are embedded:

1. A statement-level syntax of the notebook's code cells (`Stmt`,
   `notebookStmts`): each statement records what names it binds, what names it
   reads, which library function it calls, and which external effects it
   performs.  This layer settles the claims about control flow, ordering,
   error propagation and external interfaces.

2. A computational model of the library calls the notebook makes
   (`train_test_split`, the preprocessing `Pipeline`, the evaluation metrics,
   `cross_val_score`, `GridSearchCV`, `RandomizedSearchCV`), with the
   seed-driven randomness of the library made explicit.  Genuinely external
   algorithmics (decision-tree induction, the randomized parameter sampler,
   the seed-to-permutation map of the RNG) are parameters of the model
   (`LibSemantics`), since the notebook is a consumer, not an implementer, of
   those.
-/

/-- External effects a notebook statement can perform. -/
inductive Effect where
  | netRead (url : String)
  | fileRead (path : String)
  | fileWrite (path : String)
  | printOut
  | render
  deriving DecidableEq

/-- The syntactic kinds of Python statement.  The notebook only ever uses the
first three; the remaining kinds are present so that their absence is a
statement about the code, not about the representation. -/
inductive StmtKind where
  | importS
  | assign
  | exprStmt
  | tryExcept
  | ifBranch
  | whileLoop
  | forLoop
  | raiseStmt
  deriving DecidableEq

/-- One Python statement of a code cell: the kind, the names it binds, the
names it reads, the library callable it invokes (if any), and its external
effects. -/
structure Stmt where
  kind : StmtKind
  targets : List String
  uses : List String
  callee : Option String
  effects : List Effect
  deriving DecidableEq

/-- The URL string literal passed to `pandas.read_csv` in cell 2. -/
def titanicUrl : String := "https://hbiostat.org/data/repo/titanic.txt"

/-- The `index_col` keyword argument passed to `pandas.read_csv` in cell 2:
the first column of the fetched text file is used as the row index. -/
def read_csv_index_col : Nat := 0

/-- Cell 2: `import pandas`, load the Titanic dataset from the fixed URL,
display its head. -/
def cell2 : List Stmt :=
  [ ⟨.importS, ["pandas"], [], none, []⟩,
    ⟨.assign, ["titanic"], ["pandas"], some "pandas.read_csv",
      [.netRead titanicUrl]⟩,
    ⟨.exprStmt, [], ["titanic"], some "titanic.head", [.printOut]⟩ ]

/-- Cell 3: import `train_test_split`, drop the label column into
`titanic_X`, extract `titanic_y`, and split both with `test_size=0.2,
random_state=42`. -/
def cell3 : List Stmt :=
  [ ⟨.importS, ["train_test_split"], [], none, []⟩,
    ⟨.assign, ["titanic_X"], ["titanic"], some "titanic.drop", []⟩,
    ⟨.assign, ["titanic_y"], ["titanic"], none, []⟩,
    ⟨.assign, ["X_train", "X_test", "y_train", "y_test"],
      ["train_test_split", "titanic_X", "titanic_y"],
      some "train_test_split", []⟩ ]

/-- Cell 5: sklearn imports, the feature-column lists `num` and `cat`, and the
construction of the `predictor` Pipeline (ColumnTransformer + tree). -/
def cell5 : List Stmt :=
  [ ⟨.importS, ["Pipeline", "make_pipeline"], [], none, []⟩,
    ⟨.importS, ["ColumnTransformer"], [], none, []⟩,
    ⟨.importS, ["SimpleImputer"], [], none, []⟩,
    ⟨.importS, ["OneHotEncoder"], [], none, []⟩,
    ⟨.importS, ["DecisionTreeClassifier"], [], none, []⟩,
    ⟨.importS, ["FunctionTransformer"], [], none, []⟩,
    ⟨.assign, ["num"], [], none, []⟩,
    ⟨.assign, ["cat"], [], none, []⟩,
    ⟨.assign, ["predictor"],
      ["Pipeline", "ColumnTransformer", "make_pipeline", "SimpleImputer",
       "OneHotEncoder", "DecisionTreeClassifier", "cat", "num"],
      some "Pipeline", []⟩ ]

/-- Cell 7: fit the pipeline on the training partition (the fitted estimator
is echoed as the cell result). -/
def cell7 : List Stmt :=
  [ ⟨.exprStmt, [], ["predictor", "X_train", "y_train"],
      some "predictor.fit", [.printOut]⟩ ]

/-- Cell 9: print the training score, predict the test partition, display the
predictions. -/
def cell9 : List Stmt :=
  [ ⟨.exprStmt, [], ["print", "predictor", "X_train", "y_train"],
      some "predictor.score", [.printOut]⟩,
    ⟨.assign, ["y_test_pred"], ["predictor", "X_test"],
      some "predictor.predict", []⟩,
    ⟨.exprStmt, [], ["y_test_pred"], none, [.printOut]⟩ ]

/-- Cell 12: import numpy, build the imbalanced demonstration target
`y = [1]*95 + [0]*5`, display it. -/
def cell12 : List Stmt :=
  [ ⟨.importS, ["numpy"], [], none, []⟩,
    ⟨.assign, ["y"], ["numpy"], some "numpy.array", []⟩,
    ⟨.exprStmt, [], ["y"], none, [.printOut]⟩ ]

/-- Cell 14: import `accuracy_score`, build the constant all-ones prediction,
display the accuracy. -/
def cell14 : List Stmt :=
  [ ⟨.importS, ["accuracy_score"], [], none, []⟩,
    ⟨.assign, ["y_pred"], ["numpy"], some "numpy.ones", []⟩,
    ⟨.exprStmt, [], ["accuracy_score", "y", "y_pred"],
      some "accuracy_score", [.printOut]⟩ ]

/-- Cell 17: import `confusion_matrix`, compute it, display it. -/
def cell17 : List Stmt :=
  [ ⟨.importS, ["confusion_matrix"], [], none, []⟩,
    ⟨.assign, ["conf_matrix"], ["confusion_matrix", "y", "y_pred"],
      some "confusion_matrix", []⟩,
    ⟨.exprStmt, [], ["conf_matrix"], none, [.printOut]⟩ ]

/-- Cell 19: render the confusion matrix with matplotlib. -/
def cell19 : List Stmt :=
  [ ⟨.importS, ["ConfusionMatrixDisplay"], [], none, []⟩,
    ⟨.importS, ["plt"], [], none, []⟩,
    ⟨.assign, ["disp"], ["ConfusionMatrixDisplay", "conf_matrix"],
      some "ConfusionMatrixDisplay", []⟩,
    ⟨.exprStmt, [], ["disp"], some "disp.plot", []⟩,
    ⟨.exprStmt, [], ["plt"], some "plt.show", [.render]⟩ ]

/-- Cell 21: balanced accuracy of the demonstration prediction. -/
def cell21 : List Stmt :=
  [ ⟨.importS, ["balanced_accuracy_score"], [], none, []⟩,
    ⟨.exprStmt, [], ["balanced_accuracy_score", "y", "y_pred"],
      some "balanced_accuracy_score", [.printOut]⟩ ]

/-- Cell 23: precision of the demonstration prediction. -/
def cell23 : List Stmt :=
  [ ⟨.importS, ["precision_score"], [], none, []⟩,
    ⟨.exprStmt, [], ["precision_score", "y", "y_pred"],
      some "precision_score", [.printOut]⟩ ]

/-- Cell 25: recall of the demonstration prediction. -/
def cell25 : List Stmt :=
  [ ⟨.importS, ["recall_score"], [], none, []⟩,
    ⟨.exprStmt, [], ["recall_score", "y", "y_pred"],
      some "recall_score", [.printOut]⟩ ]

/-- Cell 27 contains only the comment `# Your code here`. -/
def cell27 : List Stmt := []

/-- Cell 29: 10-fold cross-validation scores of the pipeline on the training
partition. -/
def cell29 : List Stmt :=
  [ ⟨.importS, ["cross_val_score"], [], none, []⟩,
    ⟨.exprStmt, [], ["cross_val_score", "predictor", "X_train", "y_train"],
      some "cross_val_score", [.printOut]⟩ ]

/-- Cell 31: grid search over the fixed parameter grid with `cv=5`, fit, and
display of the best estimator. -/
def cell31 : List Stmt :=
  [ ⟨.importS, ["GridSearchCV"], [], none, []⟩,
    ⟨.assign, ["parameters"], [], none, []⟩,
    ⟨.assign, ["clf"], ["GridSearchCV", "predictor", "parameters"],
      some "GridSearchCV", []⟩,
    ⟨.exprStmt, [], ["clf", "X_train", "y_train"], some "clf.fit", []⟩,
    ⟨.exprStmt, [], ["clf"], none, [.printOut]⟩ ]

/-- Cell 32: compare the original pipeline's test score with the grid search
winner's test score. -/
def cell32 : List Stmt :=
  [ ⟨.exprStmt, [], ["print", "predictor", "X_test", "y_test"],
      some "predictor.score", [.printOut]⟩,
    ⟨.exprStmt, [], ["print", "clf", "X_test", "y_test"],
      some "clf.best_estimator_.score", [.printOut]⟩ ]

/-- Cell 34: randomized search over the wider parameter distributions with
`cv=5, random_state=42`, fit, and display of the best estimator. -/
def cell34 : List Stmt :=
  [ ⟨.importS, ["RandomizedSearchCV"], [], none, []⟩,
    ⟨.assign, ["parameters"], [], none, []⟩,
    ⟨.assign, ["clf"], ["RandomizedSearchCV", "predictor", "parameters"],
      some "RandomizedSearchCV", []⟩,
    ⟨.exprStmt, [], ["clf", "X_train", "y_train"], some "clf.fit", []⟩,
    ⟨.exprStmt, [], ["clf"], none, [.printOut]⟩ ]

/-- Cell 35: compare the original pipeline's test score with the randomized
search winner's test score. -/
def cell35 : List Stmt :=
  [ ⟨.exprStmt, [], ["print", "predictor", "X_test", "y_test"],
      some "predictor.score", [.printOut]⟩,
    ⟨.exprStmt, [], ["print", "clf", "X_test", "y_test"],
      some "clf.best_estimator_.score", [.printOut]⟩ ]

/-- The code cells of the notebook, in execution (= textual) order. -/
def notebookCells : List (List Stmt) :=
  [cell2, cell3, cell5, cell7, cell9, cell12, cell14, cell17, cell19,
   cell21, cell23, cell25, cell27, cell29, cell31, cell32, cell34, cell35]

/-- All statements of the notebook, flattened in execution order. -/
def notebookStmts : List Stmt := notebookCells.flatten

/-- Names available without being bound by the notebook itself (Python
builtins used by the notebook). -/
def builtinNames : List String := ["print"]

/-- Def-before-use check: scanning the statements in order, every name a
statement reads must already be bound (by an import or an assignment of an
earlier statement, or be a builtin). -/
def checkDefUse : List String → List Stmt → Bool
  | _, [] => true
  | env, s :: rest =>
      s.uses.all (fun u => env.contains u)
        && checkDefUse (s.targets ++ env) rest

/-- A statement kind is straight-line when it is an import, an assignment or
an expression statement: no branching, looping, exception handling or
raising. -/
def StmtKind.straightLine : StmtKind → Bool
  | .importS => true
  | .assign => true
  | .exprStmt => true
  | _ => false

/-- All external effects of the notebook, in execution order. -/
def allEffects : List Effect := (notebookStmts.map Stmt.effects).flatten

/-- Is the effect an input from outside the process (network or file read)? -/
def Effect.isInput : Effect → Bool
  | .netRead _ => true
  | .fileRead _ => true
  | _ => false

/-- Is the effect a write to a file (persisted state)? -/
def Effect.isFileWrite : Effect → Bool
  | .fileWrite _ => true
  | _ => false

/-- Is the effect a terminal/notebook output (printed value or rendered
figure)? -/
def Effect.isDisplay : Effect → Bool
  | .printOut => true
  | .render => true
  | _ => false

/-- The workflow steps named by the specification's flow description. -/
inductive Step where
  | load
  | split
  | construct
  | fitStep
  | evaluate
  | search
  deriving DecidableEq

/-- Classify a statement by the workflow step its library call performs:
loading the dataset, splitting it, constructing the pipeline, fitting it,
evaluating it (scores, predictions, metrics, cross-validation, matrix
rendering), or running/reporting a hyperparameter search.  Imports and plain
assignments of literals belong to no step. -/
def stepOf (s : Stmt) : Option Step :=
  match s.callee with
  | some "pandas.read_csv" => some .load
  | some "train_test_split" => some .split
  | some "Pipeline" => some .construct
  | some "predictor.fit" => some .fitStep
  | some "predictor.score" => some .evaluate
  | some "predictor.predict" => some .evaluate
  | some "accuracy_score" => some .evaluate
  | some "confusion_matrix" => some .evaluate
  | some "ConfusionMatrixDisplay" => some .evaluate
  | some "disp.plot" => some .evaluate
  | some "plt.show" => some .evaluate
  | some "balanced_accuracy_score" => some .evaluate
  | some "precision_score" => some .evaluate
  | some "recall_score" => some .evaluate
  | some "cross_val_score" => some .evaluate
  | some "GridSearchCV" => some .search
  | some "RandomizedSearchCV" => some .search
  | some "clf.fit" => some .search
  | some "clf.best_estimator_.score" => some .search
  | _ => none

/-- The sequence of workflow steps the notebook performs, in order. -/
def stepSequence : List Step := notebookStmts.filterMap stepOf

/-- Collapse consecutive repetitions, so that a phase-level sequence
remains. -/
def collapseSteps : List Step → List Step
  | [] => []
  | [s] => [s]
  | s :: t :: rest =>
      if s = t then collapseSteps (t :: rest)
      else s :: collapseSteps (t :: rest)

/-- Index of the first statement classified as the given step (length of the
statement list when the step never occurs). -/
def firstStepIdx (st : Step) : Nat :=
  notebookStmts.findIdx (fun s => stepOf s == some st)

/-- Sequential execution of statements against a semantics that may fail:
the first failing statement aborts the run with its error, unhandled. -/
def execStmts {E : Type} (sem : Stmt → Except E Unit) : List Stmt → Except E Unit
  | [] => .ok ()
  | s :: rest =>
      match sem s with
      | .error e => .error e
      | .ok () => execStmts sem rest

/-- Sequential execution with a trace: returns the statements that actually
ran, in order, together with the error that aborted the run (if any). -/
def execTrace {E : Type} (sem : Stmt → Except E Unit) :
    List Stmt → List Stmt × Option E
  | [] => ([], none)
  | s :: rest =>
      match sem s with
      | .error e => ([s], some e)
      | .ok () =>
          let tr := execTrace sem rest
          (s :: tr.1, tr.2)

/-!  Evaluation metrics, as used in the notebook's imbalanced-target
demonstration.  Labels are rationals (the notebook's numpy arrays hold the
values 0 and 1); the positive label is 1, as in scikit-learn's binary
default. -/

/-- Number of positions where the truth and the prediction both satisfy the
given tests. -/
def countWhere (py pp : ℚ → Bool) (yt yp : List ℚ) : Nat :=
  List.countP (fun ab => py ab.1 && pp ab.2) (yt.zip yp)

/-- True positives: truth 1, prediction 1. -/
def truePos (yt yp : List ℚ) : Nat :=
  countWhere (fun a => decide (a = 1)) (fun b => decide (b = 1)) yt yp

/-- True negatives: truth 0, prediction 0. -/
def trueNeg (yt yp : List ℚ) : Nat :=
  countWhere (fun a => decide (a = 0)) (fun b => decide (b = 0)) yt yp

/-- False positives: truth 0, prediction 1. -/
def falsePos (yt yp : List ℚ) : Nat :=
  countWhere (fun a => decide (a = 0)) (fun b => decide (b = 1)) yt yp

/-- False negatives: truth 1, prediction 0. -/
def falseNeg (yt yp : List ℚ) : Nat :=
  countWhere (fun a => decide (a = 1)) (fun b => decide (b = 0)) yt yp

/-- Fraction of positions where prediction equals truth
(`sklearn.metrics.accuracy_score`). -/
def accuracy_score (yt yp : List ℚ) : ℚ :=
  (List.countP (fun ab => decide (ab.1 = ab.2)) (yt.zip yp) : ℚ) /
    (yt.length : ℚ)

/-- Binary confusion matrix with labels sorted ascending (0 then 1), rows =
true class, columns = predicted class
(`sklearn.metrics.confusion_matrix`). -/
def confusion_matrix (yt yp : List ℚ) : List (List Nat) :=
  [[trueNeg yt yp, falsePos yt yp],
   [falseNeg yt yp, truePos yt yp]]

/-- Balanced accuracy: mean of the per-class recalls
(`sklearn.metrics.balanced_accuracy_score` on binary labels). -/
def balanced_accuracy_score (yt yp : List ℚ) : ℚ :=
  ((truePos yt yp : ℚ) / ((truePos yt yp : ℚ) + (falseNeg yt yp : ℚ)) +
    (trueNeg yt yp : ℚ) / ((trueNeg yt yp : ℚ) + (falsePos yt yp : ℚ))) / 2

/-- Precision: TP / (TP + FP) (`sklearn.metrics.precision_score`). -/
def precision_score (yt yp : List ℚ) : ℚ :=
  (truePos yt yp : ℚ) / ((truePos yt yp : ℚ) + (falsePos yt yp : ℚ))

/-- Recall: TP / (TP + FN) (`sklearn.metrics.recall_score`). -/
def recall_score (yt yp : List ℚ) : ℚ :=
  (truePos yt yp : ℚ) / ((truePos yt yp : ℚ) + (falseNeg yt yp : ℚ))

/-- The demonstration target of cell 12: 95 ones followed by 5 zeros. -/
def y_demo : List ℚ := List.replicate 95 1 ++ List.replicate 5 0

/-- The demonstration prediction of cell 14: `numpy.ones(100)`. -/
def y_pred_demo : List ℚ := List.replicate 100 1

/-!  Computational model of the library calls of the notebook. -/

/-- Select the rows of `xs` sitting at the given indices, in index-list
order. -/
def applyIdx {α : Type} (idx : List Nat) (xs : List α) : List α :=
  idx.filterMap (fun i => xs[i]?)

/-- Model of `sklearn.model_selection.train_test_split` on two parallel
sequences: the RNG (seeded with `random_state`) produces one permutation
`shuffled` of the row indices; the first `nTest` shuffled indices become the
test partition and the rest the train partition, and the very same index
lists are applied to the features `X` and to the labels `yl`.  Returns
`(X_train, X_test, y_train, y_test)` as the notebook unpacks them. -/
def train_test_split {α β : Type} (shuffled : List Nat) (nTest : Nat)
    (X : List α) (yl : List β) : List α × List α × List β × List β :=
  (applyIdx (shuffled.drop nTest) X, applyIdx (shuffled.take nTest) X,
   applyIdx (shuffled.drop nTest) yl, applyIdx (shuffled.take nTest) yl)

/-- With `test_size=0.2`, scikit-learn puts `ceil(0.2 * n)` rows into the
test partition. -/
def nTestOf (n : Nat) : Nat := (n + 4) / 5

/-- A feature row of the Titanic table (one passenger, label removed).  The
three columns the pipeline selects are explicit; every remaining feature
column lives in `otherCols`.  `none` stands for a missing value. -/
structure Row where
  pclass : Option String
  sex : Option String
  age : Option ℚ
  otherCols : List String
  deriving DecidableEq

/-- One row of the loaded Titanic table: a feature row plus the `survived`
label. -/
structure Passenger where
  features : Row
  survived : ℚ
  deriving DecidableEq

/-- A fitted binary decision tree over a numeric feature vector. -/
inductive DTree where
  | leaf (label : ℚ)
  | node (feature : Nat) (threshold : ℚ) (lo hi : DTree)
  deriving DecidableEq

/-- Classification: walk the tree comparing the addressed feature with the
node threshold. -/
def DTree.classify : DTree → List ℚ → ℚ
  | .leaf l, _ => l
  | .node f t lo hi, xs =>
      if xs.getD f 0 ≤ t then lo.classify xs else hi.classify xs

/-- The labels stored at the leaves of the tree. -/
def DTree.leafLabels : DTree → List ℚ
  | .leaf l => [l]
  | .node _ _ lo hi => lo.leafLabels ++ hi.leafLabels

/-- One hyperparameter setting of the pipeline, as addressed by the search
grids of cells 31 and 34: the numeric imputation strategy
(`preprocessing__num__strategy`), the split criterion
(`predictor__criterion`), `predictor__max_depth` and
`predictor__min_samples_leaf`. -/
structure Config where
  num_strategy : String
  criterion : String
  max_depth : Nat
  min_samples_leaf : Nat
  deriving DecidableEq

/-- The hyperparameters the pipeline of cell 5 is constructed with:
`SimpleImputer(strategy="mean")` and `DecisionTreeClassifier(
criterion="entropy", max_depth=3, min_samples_leaf=5)`. -/
def baseConfig : Config := ⟨"mean", "entropy", 3, 5⟩

/-- Grid values of `preprocessing__num__strategy` in cell 31. -/
def gridStrategies : List String := ["mean", "median"]

/-- Grid values of `predictor__criterion` in cell 31. -/
def gridCriteria : List String := ["gini", "entropy"]

/-- Grid values of `predictor__max_depth` in cell 31. -/
def gridMaxDepths : List Nat := [3, 5, 10]

/-- Grid values of `predictor__min_samples_leaf` in cell 31. -/
def gridMinLeaves : List Nat := [5, 10, 20]

/-- The full parameter grid of cell 31: the Cartesian product of the four
value lists. -/
def gridConfigs : List Config :=
  gridStrategies.flatMap fun s =>
    gridCriteria.flatMap fun c =>
      gridMaxDepths.flatMap fun d =>
        gridMinLeaves.map fun m => Config.mk s c d m

/-- Scan a candidate list keeping the incumbent unless a strictly better
score appears, as `best_index_` (argmin of the score ranks) keeps the
earliest maximal mean score. -/
def selectBest (f : Config → ℚ) : List Config → Config → Config
  | [], best => best
  | c :: cs, best => selectBest f cs (if f best < f c then c else best)

/-- Best configuration of a candidate list under the score `f` (earliest
maximum); `dflt` is only returned for an empty candidate list. -/
def bestOver (f : Config → ℚ) (l : List Config) (dflt : Config) : Config :=
  match l with
  | [] => dflt
  | c :: cs => selectBest f cs c

/-- Most frequent value of a list (`SimpleImputer(strategy="most_frequent")`
fill value); ties keep the earlier distinct value. -/
def mostFrequent (vals : List String) : String :=
  let uniq := vals.dedup
  uniq.foldl (fun best v => if vals.count best < vals.count v then v else best)
    (uniq.headD "")

/-- Arithmetic mean (`SimpleImputer(strategy="mean")` fill value). -/
def meanOf (vals : List ℚ) : ℚ := vals.sum / (vals.length : ℚ)

/-- Median (`SimpleImputer(strategy="median")` fill value): middle element of
the sorted values, averaging the two middle elements for even length. -/
def medianOf (vals : List ℚ) : ℚ :=
  let s := vals.mergeSort (fun a b => decide (a ≤ b))
  let n := s.length
  if n = 0 then 0
  else if n % 2 = 1 then s.getD (n / 2) 0
  else (s.getD (n / 2 - 1) 0 + s.getD (n / 2) 0) / 2

/-- Numeric imputation fill value for the given strategy string. -/
def imputeNum (strategy : String) (vals : List ℚ) : ℚ :=
  if strategy = "median" then medianOf vals else meanOf vals

/-- Fitted categories of a column: the distinct observed values in ascending
order (`OneHotEncoder` fits sorted unique categories). -/
def categoriesOf (vals : List String) : List String :=
  (vals.mergeSort (fun a b => decide (a ≤ b))).dedup

/-- One-hot encoding with `drop="first"`: one indicator column per fitted
category except the first. -/
def oneHotDropFirst (cats : List String) (v : String) : List ℚ :=
  (cats.drop 1).map (fun c => if v = c then 1 else 0)

/-- The fitted state of the `predictor` pipeline: fitted one-hot categories
and imputation fill values for the selected columns `["pclass", "sex"]` and
`["age"]`, plus the fitted decision tree. -/
structure FittedPipeline where
  pclassCats : List String
  sexCats : List String
  pclassFill : String
  sexFill : String
  ageFill : ℚ
  tree : DTree
  deriving DecidableEq

/-- The fitted ColumnTransformer: encode the imputed `pclass` and `sex`
(the `cat` branch, first), then the imputed `age` (the `num` branch);
`remainder="drop"` discards every other column, so `otherCols` is not
read. -/
def FittedPipeline.transform (fp : FittedPipeline) (r : Row) : List ℚ :=
  oneHotDropFirst fp.pclassCats (r.pclass.getD fp.pclassFill) ++
    oneHotDropFirst fp.sexCats (r.sex.getD fp.sexFill) ++
    [r.age.getD fp.ageFill]

/-- Pipeline prediction: preprocess the row, then classify with the fitted
tree. -/
def FittedPipeline.predict (fp : FittedPipeline) (r : Row) : ℚ :=
  fp.tree.classify (fp.transform r)

/-- Pipeline `score`: mean accuracy of the predictions against the given
labels. -/
def FittedPipeline.score (fp : FittedPipeline) (X : List Row) (yl : List ℚ) : ℚ :=
  accuracy_score yl (X.map fp.predict)

/-- The external library's algorithmic core, out of scope of the notebook:
`permOfSeed seed n` is the RNG's index permutation for an `n`-row split,
`fitTree seed cfg features labels` is decision-tree induction (whose result
may depend on the RNG seed it draws, since ties between candidate splits are
broken through a random feature permutation), and `sampleConfigs seed` is
`RandomizedSearchCV`'s seeded parameter sampler. -/
structure LibSemantics where
  permOfSeed : Nat → Nat → List Nat
  fitTree : Nat → Config → List (List ℚ) → List ℚ → DTree
  sampleConfigs : Nat → List Config

/-- Fitting the pipeline of cell 5 under a hyperparameter setting: fit the
imputers and the encoder on the training rows, transform them, and hand the
feature matrix to the library's tree induction.  `treeSeed` is the RNG draw
the `DecisionTreeClassifier` consumes (the notebook constructs it without
`random_state`). -/
def fitPipeline (lib : LibSemantics) (cfg : Config) (treeSeed : Nat)
    (X : List Row) (yl : List ℚ) : FittedPipeline :=
  let pFill := mostFrequent (X.filterMap Row.pclass)
  let sFill := mostFrequent (X.filterMap Row.sex)
  let fp0 : FittedPipeline :=
    { pclassCats := categoriesOf (X.map (fun r => r.pclass.getD pFill))
      sexCats := categoriesOf (X.map (fun r => r.sex.getD sFill))
      pclassFill := pFill
      sexFill := sFill
      ageFill := imputeNum cfg.num_strategy (X.filterMap Row.age)
      tree := DTree.leaf 0 }
  { fp0 with tree := lib.fitTree treeSeed cfg (X.map fp0.transform) yl }

/-- First row index of fold `i` of an unshuffled `k`-fold split of `n` rows
(the first `n % k` folds get an extra row). -/
def foldStart (n k i : Nat) : Nat := i * (n / k) + min i (n % k)

/-- One-past-the-last row index of fold `i`. -/
def foldStop (n k i : Nat) : Nat :=
  foldStart n k i + n / k + (if i < n % k then 1 else 0)

/-- Score of one cross-validation fold: fit a fresh pipeline on the rows
outside the fold, score it on the fold. -/
def cvFoldScore (lib : LibSemantics) (cfg : Config) (treeSeed : Nat)
    (X : List Row) (yl : List ℚ) (k i : Nat) : ℚ :=
  let n := X.length
  let teIdx := (List.range n).filter
    (fun j => decide (foldStart n k i ≤ j) && decide (j < foldStop n k i))
  let trIdx := (List.range n).filter
    (fun j => decide (j < foldStart n k i) || decide (foldStop n k i ≤ j))
  let fp := fitPipeline lib cfg treeSeed (applyIdx trIdx X) (applyIdx trIdx yl)
  fp.score (applyIdx teIdx X) (applyIdx teIdx yl)

/-- Model of `cross_val_score` with unshuffled `KFold(k)` folds. -/
def cross_val_score (lib : LibSemantics) (cfg : Config) (treeSeed : Nat)
    (X : List Row) (yl : List ℚ) (k : Nat) : List ℚ :=
  (List.range k).map (cvFoldScore lib cfg treeSeed X yl k)

/-- Mean 5-fold (or k-fold) cross-validation score of a configuration, the
quantity both search procedures rank configurations by. -/
def meanCV (lib : LibSemantics) (cfg : Config) (treeSeed : Nat)
    (X : List Row) (yl : List ℚ) (k : Nat) : ℚ :=
  (cross_val_score lib cfg treeSeed X yl k).sum / (k : ℚ)

/-- The configuration `GridSearchCV` selects: earliest maximum of the score
over the full grid. -/
def gridBestConfig (f : Config → ℚ) : Config := bestOver f gridConfigs baseConfig

/-- Everything the notebook computes and prints downstream of the loaded
data, in one record. -/
structure RunOutput where
  X_train : List Row
  X_test : List Row
  y_train : List ℚ
  y_test : List ℚ
  trainScore : ℚ
  y_test_pred : List ℚ
  demoAccuracy : ℚ
  demoConfMatrix : List (List Nat)
  demoBalanced : ℚ
  demoPrecision : ℚ
  demoRecall : ℚ
  cvScores : List ℚ
  gridCfg : Config
  origTestScore : ℚ
  gridTestScore : ℚ
  randCfgs : List Config
  randCfg : Config
  randTestScore : ℚ
  deriving DecidableEq

/-- The whole notebook run as a function of the fetched data and of the
ambient entropy.  Calls made with a fixed `random_state` use that seed;
the `DecisionTreeClassifier`, constructed without `random_state`, draws its
seed from the ambient entropy instead. -/
def runNotebook (lib : LibSemantics) (data : List Passenger) (entropy : Nat) :
    RunOutput :=
  let titanic_X := data.map Passenger.features
  let titanic_y := data.map Passenger.survived
  let n := titanic_X.length
  let split := train_test_split (lib.permOfSeed 42 n) (nTestOf n)
    titanic_X titanic_y
  let Xtr := split.1
  let Xte := split.2.1
  let ytr := split.2.2.1
  let yte := split.2.2.2
  let fp := fitPipeline lib baseConfig entropy Xtr ytr
  let gridCfg := gridBestConfig (fun c => meanCV lib c entropy Xtr ytr 5)
  let gridBest := fitPipeline lib gridCfg entropy Xtr ytr
  let randCfgs := lib.sampleConfigs 42
  let randCfg := bestOver (fun c => meanCV lib c entropy Xtr ytr 5)
    randCfgs baseConfig
  let randBest := fitPipeline lib randCfg entropy Xtr ytr
  { X_train := Xtr
    X_test := Xte
    y_train := ytr
    y_test := yte
    trainScore := fp.score Xtr ytr
    y_test_pred := Xte.map fp.predict
    demoAccuracy := accuracy_score y_demo y_pred_demo
    demoConfMatrix := confusion_matrix y_demo y_pred_demo
    demoBalanced := balanced_accuracy_score y_demo y_pred_demo
    demoPrecision := precision_score y_demo y_pred_demo
    demoRecall := recall_score y_demo y_pred_demo
    cvScores := cross_val_score lib baseConfig entropy Xtr ytr 10
    gridCfg := gridCfg
    origTestScore := fp.score Xte yte
    gridTestScore := gridBest.score Xte yte
    randCfgs := randCfgs
    randCfg := randCfg
    randTestScore := randBest.score Xte yte }

/-- A small concrete dataset used to evaluate the model at concrete
inputs. -/
def demoData : List Passenger :=
  [⟨⟨some "1", some "female", some 29, ["Allen"]⟩, 1⟩,
   ⟨⟨some "2", some "male", none, ["Baker"]⟩, 0⟩,
   ⟨⟨some "3", some "male", some 30, ["Cook"]⟩, 0⟩,
   ⟨⟨some "1", some "female", some 2, ["Dean"]⟩, 1⟩,
   ⟨⟨some "3", some "female", some 25, ["Egan"]⟩, 1⟩]

/-- A concrete deterministic library semantics: identity permutation,
seed-insensitive tree induction that always answers the first training
label, and a one-candidate sampler. -/
def lib0 : LibSemantics :=
  { permOfSeed := fun _ n => List.range n
    fitTree := fun _ _ _ yl => .leaf (yl.headD 0)
    sampleConfigs := fun _ => [baseConfig] }

/-- A concrete library semantics whose tree induction depends on the RNG
seed it draws (as scikit-learn's documentation allows when candidate splits
tie). -/
def libSeedSensitive : LibSemantics :=
  { permOfSeed := fun _ n => List.range n
    fitTree := fun s _ _ _ => .leaf s
    sampleConfigs := fun _ => [] }

/-- A concrete fitted pipeline used to evaluate the model at concrete
inputs. -/
def fpDemo : FittedPipeline :=
  ⟨["1", "2", "3"], ["female", "male"], "3", "male", 30,
    .node 0 0 (.leaf 0) (.leaf 1)⟩

/-- A concrete feature row. -/
def rowA : Row := ⟨some "2", some "female", some 4, ["Smith", "C", "7.25"]⟩

/-- A feature row agreeing with `rowA` on `pclass`, `sex` and `age` but
differing on every remaining column. -/
def rowB : Row := ⟨some "2", some "female", some 4, ["Jones", "Q", "99.0"]⟩

/-!  Helper lemmas. -/

/-- Every selected row is a row of the original list. -/
theorem mem_of_mem_applyIdx {α : Type} {idx : List Nat} {xs : List α} {a : α}
    (h : a ∈ applyIdx idx xs) : a ∈ xs := by
  unfold applyIdx at h
  rcases List.mem_filterMap.mp h with ⟨i, _, hi⟩
  exact List.getElem?_mem hi

/-- Index selection commutes with zipping two equally long lists: selecting
rows of the zipped table is zipping the selected rows. -/
theorem applyIdx_zip {α β : Type} (idx : List Nat) (X : List α) (yl : List β)
    (hlen : X.length = yl.length) :
    applyIdx idx (X.zip yl) = (applyIdx idx X).zip (applyIdx idx yl) := by
  induction idx with
  | nil => rfl
  | cons i idx ih =>
    unfold applyIdx at *
    simp only [List.filterMap_cons]
    by_cases h : i < X.length
    · have hy : i < yl.length := by omega
      have hz : i < (X.zip yl).length := by
        rw [List.length_zip]; omega
      rw [List.getElem?_eq_getElem h, List.getElem?_eq_getElem hy,
        List.getElem?_eq_getElem hz, List.getElem_zip]
      simp [ih]
    · have hx : X[i]? = none := List.getElem?_eq_none (by omega)
      have hy : yl[i]? = none := List.getElem?_eq_none (by omega)
      have hz : (X.zip yl)[i]? = none := List.getElem?_eq_none (by
        rw [List.length_zip]; omega)
      rw [hx, hy, hz]
      simpa using ih

/-- The answer of a classification walk is one of the leaf labels. -/
theorem classify_mem_leafLabels (t : DTree) (xs : List ℚ) :
    t.classify xs ∈ t.leafLabels := by
  induction t with
  | leaf l => simp [DTree.classify, DTree.leafLabels]
  | node f th lo hi ihl ihh =>
    simp only [DTree.classify, DTree.leafLabels, List.mem_append]
    split
    · exact Or.inl ihl
    · exact Or.inr ihh

/-- The scan result is one of the candidates (or the incumbent). -/
theorem selectBest_mem (f : Config → ℚ) (l : List Config) (b : Config) :
    selectBest f l b ∈ b :: l := by
  induction l generalizing b with
  | nil => simp [selectBest]
  | cons c cs ih =>
    show selectBest f cs (if f b < f c then c else b) ∈ b :: c :: cs
    rcases List.mem_cons.mp (ih (if f b < f c then c else b)) with h3 | h3
    · rw [h3]
      by_cases h : f b < f c <;> simp [h]
    · exact List.mem_cons_of_mem _ (List.mem_cons_of_mem _ h3)

/-- No candidate (nor the incumbent) scores strictly better than the scan
result. -/
theorem selectBest_le (f : Config → ℚ) (l : List Config) :
    ∀ b : Config, ∀ x ∈ b :: l, f x ≤ f (selectBest f l b) := by
  induction l with
  | nil =>
    intro b x hx
    have hxb : x = b := by simpa using hx
    rw [hxb]
    exact le_refl _
  | cons c cs ih =>
    intro b x hx
    have hb : f b ≤ f (if f b < f c then c else b) := by
      by_cases h : f b < f c
      · simpa [h] using le_of_lt h
      · simp [h]
    have hc : f c ≤ f (if f b < f c then c else b) := by
      by_cases h : f b < f c
      · simp [h]
      · simpa [h] using le_of_not_lt h
    have hbest : f (if f b < f c then c else b) ≤
        f (selectBest f cs (if f b < f c then c else b)) :=
      ih (if f b < f c then c else b) _ (List.mem_cons_self _ _)
    show f x ≤ f (selectBest f cs (if f b < f c then c else b))
    rcases List.mem_cons.mp hx with rfl | hx2
    · exact le_trans hb hbest
    rcases List.mem_cons.mp hx2 with rfl | hx3
    · exact le_trans hc hbest
    · exact ih (if f b < f c then c else b) x (List.mem_cons_of_mem _ hx3)

/-- A failing statement after a succeeding prefix aborts the sequential run
with exactly its error. -/
theorem execStmts_error {E : Type} (sem : Stmt → Except E Unit) (e : E) :
    ∀ (pre : List Stmt) (s : Stmt) (rest : List Stmt),
      (∀ t ∈ pre, sem t = .ok ()) → sem s = .error e →
      execStmts sem (pre ++ s :: rest) = .error e := by
  intro pre
  induction pre with
  | nil =>
    intro s rest _ hs
    simp [execStmts, hs]
  | cons t ts ih =>
    intro s rest hok hs
    have ht : sem t = .ok () := hok t (List.mem_cons_self _ _)
    simp only [List.cons_append, execStmts, ht]
    exact ih s rest (fun u hu => hok u (List.mem_cons_of_mem _ hu)) hs

/-- When every statement succeeds, the trace of a sequential run is the
statement list itself: each statement runs exactly once, in order. -/
theorem execTrace_all_ok {E : Type} (sem : Stmt → Except E Unit) :
    ∀ l : List Stmt, (∀ s ∈ l, sem s = .ok ()) → execTrace sem l = (l, none) := by
  intro l
  induction l with
  | nil => intro _; rfl
  | cons s rest ih =>
    intro h
    have hs := h s (List.mem_cons_self _ _)
    simp [execTrace, hs, ih (fun t ht => h t (List.mem_cons_of_mem _ ht))]

/-- The best-of-list pick is one of the candidates whenever there are
candidates. -/
theorem bestOver_mem (f : Config → ℚ) (l : List Config) (dflt : Config)
    (h : l ≠ []) : bestOver f l dflt ∈ l := by
  match l with
  | [] => exact absurd rfl h
  | c :: cs => exact selectBest_mem f cs c

/-- No candidate scores strictly better than the best-of-list pick. -/
theorem bestOver_le (f : Config → ℚ) (l : List Config) (dflt : Config) :
    ∀ x ∈ l, f x ≤ f (bestOver f l dflt) := by
  match l with
  | [] => intro x hx; exact absurd hx (List.not_mem_nil x)
  | c :: cs => exact selectBest_le f cs c

/-!  Claim theorems. -/

set_option maxRecDepth 8000 in
/-- C8: in the imbalanced-target demonstration (y = 95 ones then 5 zeros,
y_pred = 100 ones) the metrics evaluate to exactly accuracy 95/100,
confusion matrix [[0, 5], [0, 95]], balanced accuracy 1/2, precision
95/100, and recall 1. -/
theorem imbalanced_demo_metric_values :
    accuracy_score y_demo y_pred_demo = 95 / 100 ∧
    confusion_matrix y_demo y_pred_demo = [[0, 5], [0, 95]] ∧
    balanced_accuracy_score y_demo y_pred_demo = 1 / 2 ∧
    precision_score y_demo y_pred_demo = 95 / 100 ∧
    recall_score y_demo y_pred_demo = 1 := by
  have h1 : truePos y_demo y_pred_demo = 95 := by decide
  have h2 : falseNeg y_demo y_pred_demo = 0 := by decide
  have h3 : trueNeg y_demo y_pred_demo = 0 := by decide
  have h4 : falsePos y_demo y_pred_demo = 5 := by decide
  have h5 : List.countP (fun ab => decide (ab.1 = ab.2))
      (y_demo.zip y_pred_demo) = 95 := by decide
  have h6 : y_demo.length = 100 := by decide
  refine ⟨?_, ?_, ?_, ?_, ?_⟩
  · unfold accuracy_score
    rw [h5, h6]
    norm_num
  · unfold confusion_matrix
    rw [h1, h2, h3, h4]
  · unfold balanced_accuracy_score
    rw [h1, h2, h3, h4]
    norm_num
  · unfold precision_score
    rw [h1, h4]
    norm_num
  · unfold recall_score
    rw [h1, h2]
    norm_num

/-- C5: the only external input the notebook reads is the one fixed URL,
fetched once; it writes no file; every other effect is a printed value or a
rendered figure, and exactly one figure is rendered; `read_csv` is told to
take the first column as the index. -/
theorem external_interface_single_url :
    allEffects.filter Effect.isInput = [.netRead titanicUrl] ∧
    titanicUrl = "https://hbiostat.org/data/repo/titanic.txt" ∧
    read_csv_index_col = 0 ∧
    allEffects.filter Effect.isFileWrite = [] ∧
    allEffects.all (fun e => e.isInput || e.isDisplay) = true ∧
    allEffects.countP (fun e => e == Effect.render) = 1 :=
  ⟨by decide, rfl, rfl, by decide, by decide, by decide⟩

/-- C4: the notebook contains no exception handler, no loop and no branch,
and under sequential execution an error raised by any statement whose
predecessors all succeeded aborts the whole run with exactly that error. -/
theorem no_error_handling_propagates :
    (notebookStmts.all (fun s => decide (s.kind ≠ .tryExcept) &&
      decide (s.kind ≠ .ifBranch) && decide (s.kind ≠ .whileLoop) &&
      decide (s.kind ≠ .forLoop))) = true ∧
    ∀ (E : Type) (sem : Stmt → Except E Unit) (e : E) (pre : List Stmt)
      (s : Stmt) (rest : List Stmt),
      notebookStmts = pre ++ s :: rest →
      (∀ t ∈ pre, sem t = .ok ()) →
      sem s = .error e →
      execStmts sem notebookStmts = .error e := by
  constructor
  · decide
  · intro E sem e pre s rest hsplit hok hs
    rw [hsplit]
    exact execStmts_error sem e pre s rest hok hs

/-- Concrete instance of C4: a semantics failing at the very first statement
aborts the whole notebook with that error. -/
theorem no_error_handling_propagates_witness :
    execStmts (fun _ => Except.error 7) notebookStmts = Except.error 7 :=
  no_error_handling_propagates.2 Nat (fun _ => Except.error 7) 7 []
    ⟨.importS, ["pandas"], [], none, []⟩ notebookStmts.tail
    (by decide) (fun t ht => absurd ht (List.not_mem_nil t)) rfl

/-- C6: every notebook statement is straight-line (an import, an assignment
or an expression statement), and under any semantics in which every
statement succeeds, the execution trace of each cell is exactly that cell's
statement list: every statement runs exactly once, in textual order. -/
theorem straight_line_single_pass :
    (notebookStmts.all (fun s => s.kind.straightLine)) = true ∧
    ∀ (E : Type) (sem : Stmt → Except E Unit),
      (∀ s ∈ notebookStmts, sem s = .ok ()) →
      ∀ cell ∈ notebookCells, execTrace sem cell = (cell, none) := by
  constructor
  · decide
  · intro E sem hok cell hcell
    refine execTrace_all_ok sem cell ?_
    intro s hs
    exact hok s (List.mem_flatten.mpr ⟨cell, hcell, hs⟩)

/-- Concrete instance of C6: with an always-succeeding semantics, cell 2's
trace is cell 2 itself. -/
theorem straight_line_single_pass_witness :
    @execTrace Unit (fun _ => Except.ok ()) cell2 = (cell2, none) :=
  straight_line_single_pass.2 Unit (fun _ => Except.ok ())
    (fun _ _ => rfl) cell2 (by decide)

/-- C1 counterexample: the notebook does not execute exactly the sequence
load, split, construct, fit, evaluate, search with the searches last: after
the grid search has run, cells 32 and 35 evaluate the original pipeline on
the test partition again, so evaluation steps reoccur after search steps. -/
theorem notebook_flow_not_exactly_ordered :
    ¬ (collapseSteps stepSequence =
        [.load, .split, .construct, .fitStep, .evaluate, .search] ∧
       checkDefUse builtinNames notebookStmts = true) := by
  decide

/-- C1 (amended): the notebook performs load, split, construct, fit, a block
of evaluations, then the searches, in that order of first occurrence; the
full phase sequence is load, split, construct, fit, evaluate, then search
and evaluate alternating (the searches' comparison cells re-score the
original pipeline on the test partition, and those re-scorings are the only
evaluations after the first search); and every name a statement reads was
bound by an earlier statement, so no step runs before its inputs exist. -/
theorem notebook_flow_order_amended :
    checkDefUse builtinNames notebookStmts = true ∧
    collapseSteps stepSequence =
      [.load, .split, .construct, .fitStep, .evaluate, .search,
       .evaluate, .search, .evaluate, .search] ∧
    firstStepIdx .load < firstStepIdx .split ∧
    firstStepIdx .split < firstStepIdx .construct ∧
    firstStepIdx .construct < firstStepIdx .fitStep ∧
    firstStepIdx .fitStep < firstStepIdx .evaluate ∧
    firstStepIdx .evaluate < firstStepIdx .search ∧
    firstStepIdx .search < notebookStmts.length ∧
    ((notebookStmts.drop (firstStepIdx .search)).all
      (fun s => !(stepOf s == some .evaluate) ||
        (s.callee == some "predictor.score" &&
          s.uses.contains "X_test"))) = true := by
  decide

/-- C2: the split applies one and the same index selection to the features
and to the labels, so the zipped train (resp. test) partition is an index
selection of the zipped original table: `y_train[i]` is the `survived` value
of the very passenger row `X_train[i]` came from, and likewise for the test
partition. -/
theorem split_keeps_rows_aligned (lib : LibSemantics) (data : List Passenger)
    (entropy : Nat) :
    (runNotebook lib data entropy).X_train.zip
        (runNotebook lib data entropy).y_train =
      applyIdx ((lib.permOfSeed 42 data.length).drop (nTestOf data.length))
        (data.map (fun p => (p.features, p.survived))) ∧
    (runNotebook lib data entropy).X_test.zip
        (runNotebook lib data entropy).y_test =
      applyIdx ((lib.permOfSeed 42 data.length).take (nTestOf data.length))
        (data.map (fun p => (p.features, p.survived))) := by
  simp only [runNotebook, train_test_split]
  constructor
  · rw [← applyIdx_zip _ _ _ (by simp), List.zip_map']
    simp only [List.length_map]
  · rw [← applyIdx_zip _ _ _ (by simp), List.zip_map']
    simp only [List.length_map]

/-- C3: the grid of cell 31 has exactly 36 configurations (2 strategies ×
2 criteria × 3 depths × 3 leaf minimums), no listed combination is missing
from it, the grid search's pick is one of the grid's configurations, its
mean 5-fold cross-validation score is maximal over the whole grid, and the
notebook's grid-search result is exactly that pick over the training
partition. -/
theorem grid_search_exhaustive_optimal (f : Config → ℚ) (lib : LibSemantics)
    (data : List Passenger) (entropy : Nat) :
    gridConfigs.length = 36 ∧
    (∀ s ∈ gridStrategies, ∀ c ∈ gridCriteria, ∀ d ∈ gridMaxDepths,
      ∀ m ∈ gridMinLeaves, Config.mk s c d m ∈ gridConfigs) ∧
    gridBestConfig f ∈ gridConfigs ∧
    (∀ cfg ∈ gridConfigs, f cfg ≤ f (gridBestConfig f)) ∧
    (runNotebook lib data entropy).gridCfg =
      gridBestConfig (fun c =>
        meanCV lib c entropy (runNotebook lib data entropy).X_train
          (runNotebook lib data entropy).y_train 5) := by
  refine ⟨by decide, ?_, ?_, ?_, rfl⟩
  · intro s hs c hc d hd m hm
    unfold gridConfigs
    refine List.mem_flatMap.mpr ⟨s, hs, ?_⟩
    refine List.mem_flatMap.mpr ⟨c, hc, ?_⟩
    refine List.mem_flatMap.mpr ⟨d, hd, ?_⟩
    exact List.mem_map.mpr ⟨m, hm, rfl⟩
  · exact bestOver_mem f gridConfigs baseConfig (by decide)
  · exact bestOver_le f gridConfigs baseConfig

/-- Concrete instance of C3: the pipeline's own configuration is in the
grid, and it scores no better than the grid search's pick. -/
theorem grid_search_exhaustive_optimal_witness :
    baseConfig ∈ gridConfigs ∧
    meanCV lib0 baseConfig 0 [] [] 5 ≤
      meanCV lib0 (gridBestConfig (fun c => meanCV lib0 c 0 [] [] 5)) 0 [] [] 5 :=
  ⟨by decide, (grid_search_exhaustive_optimal (fun c => meanCV lib0 c 0 [] [] 5)
      lib0 [] 0).2.2.2.1 baseConfig (by decide)⟩

/-- C10: the fitted pipeline reads only `pclass`, `sex` and `age`
(the ColumnTransformer selects exactly those columns and drops the
remainder), so two rows agreeing on those three columns get the same
prediction, whatever their other columns hold. -/
theorem predict_depends_only_on_selected_columns (fp : FittedPipeline)
    (r1 r2 : Row) (hp : r1.pclass = r2.pclass) (hs : r1.sex = r2.sex)
    (ha : r1.age = r2.age) :
    fp.predict r1 = fp.predict r2 := by
  unfold FittedPipeline.predict FittedPipeline.transform
  rw [hp, hs, ha]

/-- Concrete instance of C10: two rows equal on the three selected columns
and different everywhere else get the same prediction. -/
theorem predict_depends_only_on_selected_columns_witness :
    rowA.pclass = rowB.pclass ∧ rowA.sex = rowB.sex ∧ rowA.age = rowB.age ∧
    rowA.otherCols ≠ rowB.otherCols ∧
    fpDemo.predict rowA = fpDemo.predict rowB :=
  ⟨rfl, rfl, rfl, by decide,
    predict_depends_only_on_selected_columns fpDemo rowA rowB rfl rfl rfl⟩

/-- A pipeline fitted on a nonempty label list predicts one of the training
labels (the classifier's answer is one of the classes it saw while
fitting). -/
theorem fitPipeline_predict_mem (lib : LibSemantics)
    (hlib : ∀ s cfg ft yl, yl ≠ [] →
      ∀ l ∈ (lib.fitTree s cfg ft yl).leafLabels, l ∈ yl)
    (cfg : Config) (seed : Nat) (X : List Row) (yl : List ℚ) (hne : yl ≠ [])
    (r : Row) : (fitPipeline lib cfg seed X yl).predict r ∈ yl := by
  simp only [fitPipeline, FittedPipeline.predict]
  refine hlib seed cfg _ yl hne _ (classify_mem_leafLabels _ _)

/-- Predictions of a pipeline fitted on binary labels are binary. -/
theorem predictions_binary_generic (lib : LibSemantics)
    (hlib : ∀ s cfg ft yl, yl ≠ [] →
      ∀ l ∈ (lib.fitTree s cfg ft yl).leafLabels, l ∈ yl)
    (cfg : Config) (seed : Nat) (X : List Row) (yl : List ℚ)
    (hbinl : ∀ v ∈ yl, v = 0 ∨ v = 1) (hne : yl ≠ []) (Xte : List Row) :
    ∀ v ∈ Xte.map (fitPipeline lib cfg seed X yl).predict, v = 0 ∨ v = 1 := by
  intro v hv
  rcases List.mem_map.mp hv with ⟨r, hr, rfl⟩
  exact hbinl _ (fitPipeline_predict_mem lib hlib cfg seed X yl hne r)

/-- C7: when every `survived` value of the loaded table is 0 or 1 (as the
Titanic label column is) and tree induction only ever answers classes it
saw during fitting, every entry of `y_train` and `y_test` is 0 or 1, and —
as soon as the training partition is nonempty — so is every prediction the
pipeline makes on the test partition. -/
theorem survived_label_binary (lib : LibSemantics) (data : List Passenger)
    (entropy : Nat)
    (hbin : ∀ p ∈ data, p.survived = 0 ∨ p.survived = 1)
    (hlib : ∀ s cfg ft yl, yl ≠ [] →
      ∀ l ∈ (lib.fitTree s cfg ft yl).leafLabels, l ∈ yl) :
    (∀ v ∈ (runNotebook lib data entropy).y_train, v = 0 ∨ v = 1) ∧
    (∀ v ∈ (runNotebook lib data entropy).y_test, v = 0 ∨ v = 1) ∧
    ((runNotebook lib data entropy).y_train ≠ [] →
      ∀ v ∈ (runNotebook lib data entropy).y_test_pred, v = 0 ∨ v = 1) := by
  simp only [runNotebook, train_test_split]
  refine ⟨?_, ?_, ?_⟩
  · intro v hv
    rcases List.mem_map.mp (mem_of_mem_applyIdx hv) with ⟨p, hp, rfl⟩
    exact hbin p hp
  · intro v hv
    rcases List.mem_map.mp (mem_of_mem_applyIdx hv) with ⟨p, hp, rfl⟩
    exact hbin p hp
  · intro hne v hv
    refine predictions_binary_generic lib hlib baseConfig entropy _ _ ?_ hne _ v hv
    intro w hw
    rcases List.mem_map.mp (mem_of_mem_applyIdx hw) with ⟨p, hp, rfl⟩
    exact hbin p hp

/-- Concrete instance of C7: on the demonstration data with 0/1 labels and a
first-label classifier, splits and predictions are all binary. -/
theorem survived_label_binary_witness :
    (∀ v ∈ (runNotebook lib0 demoData 0).y_train, v = 0 ∨ v = 1) ∧
    (∀ v ∈ (runNotebook lib0 demoData 0).y_test, v = 0 ∨ v = 1) ∧
    ((runNotebook lib0 demoData 0).y_train ≠ [] →
      ∀ v ∈ (runNotebook lib0 demoData 0).y_test_pred, v = 0 ∨ v = 1) :=
  survived_label_binary lib0 demoData 0 (by decide)
    (by
      intro s cfg ft yl hne l hl
      simp only [lib0, DTree.leafLabels, List.mem_singleton] at hl
      rw [hl]
      match yl with
      | [] => exact absurd rfl hne
      | a :: tl => exact List.mem_cons_self _ _)

/-- Pipeline fitting ignores the ambient seed when the library's tree
induction does. -/
theorem fitPipeline_seed_free {lib : LibSemantics}
    (h : ∀ s1 s2 : Nat, lib.fitTree s1 = lib.fitTree s2) (e1 e2 : Nat) :
    ∀ (cfg : Config) (X : List Row) (yl : List ℚ),
      fitPipeline lib cfg e1 X yl = fitPipeline lib cfg e2 X yl := by
  intro cfg X yl
  unfold fitPipeline
  rw [h e1 e2]

/-- A fold's score ignores the ambient seed when tree induction does. -/
theorem cvFoldScore_seed_free {lib : LibSemantics}
    (h : ∀ s1 s2 : Nat, lib.fitTree s1 = lib.fitTree s2) (e1 e2 : Nat) :
    ∀ (cfg : Config) (X : List Row) (yl : List ℚ) (k i : Nat),
      cvFoldScore lib cfg e1 X yl k i = cvFoldScore lib cfg e2 X yl k i := by
  intro cfg X yl k i
  simp only [cvFoldScore, fitPipeline_seed_free h e1 e2]

/-- Cross-validation scores ignore the ambient seed when tree induction
does. -/
theorem cross_val_score_seed_free {lib : LibSemantics}
    (h : ∀ s1 s2 : Nat, lib.fitTree s1 = lib.fitTree s2) (e1 e2 : Nat) :
    ∀ (cfg : Config) (X : List Row) (yl : List ℚ) (k : Nat),
      cross_val_score lib cfg e1 X yl k = cross_val_score lib cfg e2 X yl k := by
  intro cfg X yl k
  unfold cross_val_score
  exact List.map_congr_left (fun i _ => cvFoldScore_seed_free h e1 e2 cfg X yl k i)

/-- The mean cross-validation score ignores the ambient seed when tree
induction does. -/
theorem meanCV_seed_free {lib : LibSemantics}
    (h : ∀ s1 s2 : Nat, lib.fitTree s1 = lib.fitTree s2) (e1 e2 : Nat) :
    ∀ (cfg : Config) (X : List Row) (yl : List ℚ) (k : Nat),
      meanCV lib cfg e1 X yl k = meanCV lib cfg e2 X yl k := by
  intro cfg X yl k
  simp only [meanCV, cross_val_score_seed_free h e1 e2]

/-- The whole run ignores the ambient seed when tree induction does. -/
theorem runNotebook_seed_free (lib : LibSemantics) (data : List Passenger)
    (e1 e2 : Nat) (h : ∀ s1 s2 : Nat, lib.fitTree s1 = lib.fitTree s2) :
    runNotebook lib data e1 = runNotebook lib data e2 := by
  simp only [runNotebook]
  simp only [fitPipeline_seed_free h e1 e2, meanCV_seed_free h e1 e2,
    cross_val_score_seed_free h e1 e2]

/-- C9 counterexample: determinism of the whole run fails as claimed,
because the `DecisionTreeClassifier` inside the pipeline is constructed
without `random_state`: with a library whose tree induction depends on the
RNG seed it draws, the same fetched data produces different outputs for
different ambient entropy. -/
theorem unseeded_tree_breaks_determinism :
    runNotebook libSeedSensitive demoData 0 ≠
      runNotebook libSeedSensitive demoData 1 := by
  intro h
  have h2 := congrArg RunOutput.y_test_pred h
  revert h2
  decide

/-- C9 (amended): the operations the notebook does seed (the train/test
split with `random_state=42`, the randomized search's parameter sampling
with `random_state=42`, and the unshuffled cross-validation folds) are
entropy-independent — the partitions and the sampled configurations are
identical across runs unconditionally; and whenever the library's tree
induction is insensitive to its RNG draw, two runs on the same fetched data
produce identical outputs throughout. -/
theorem determinism_of_seeded_operations (lib : LibSemantics)
    (data : List Passenger) (e1 e2 : Nat) :
    ((runNotebook lib data e1).X_train = (runNotebook lib data e2).X_train ∧
     (runNotebook lib data e1).X_test = (runNotebook lib data e2).X_test ∧
     (runNotebook lib data e1).y_train = (runNotebook lib data e2).y_train ∧
     (runNotebook lib data e1).y_test = (runNotebook lib data e2).y_test ∧
     (runNotebook lib data e1).randCfgs = (runNotebook lib data e2).randCfgs) ∧
    ((∀ s1 s2 : Nat, lib.fitTree s1 = lib.fitTree s2) →
      runNotebook lib data e1 = runNotebook lib data e2) := by
  refine ⟨⟨rfl, rfl, rfl, rfl, rfl⟩, ?_⟩
  intro h
  exact runNotebook_seed_free lib data e1 e2 h

/-- Concrete instance of C9 (amended): with a seed-insensitive library, two
runs with different ambient entropy coincide. -/
theorem determinism_of_seeded_operations_witness :
    runNotebook lib0 demoData 0 = runNotebook lib0 demoData 3 :=
  (determinism_of_seeded_operations lib0 demoData 0 3).2 (fun _ _ => rfl)
